import Mathlib

/-!
Shallow embedding of `src/rp_handler.py` (a RunPod serverless worker that
drives a ComfyUI instance: validate input, probe readiness, upload input
images, queue the workflow, poll for completion, resolve the output
artifact, clean the output directory, and return a payload).

External effects (HTTP requests, the filesystem, base64 decoding, clock) are
determinized as oracle functions carried in environment records.  Each Python
function is translated into a Lean definition of the same name; an exception
that the Python code does not catch is modelled as `Except.error`, so a
handler outcome of `Except.error` means the worker process crashes with an
uncaught exception.
-/

deriving instance DecidableEq for Except

namespace RpHandler

/-- Result of one `requests.get(url)` readiness probe: an HTTP status code,
or a raised `requests.RequestException`. -/
inductive ProbeResp where
  | status (code : Nat)
  | exn
deriving DecidableEq

/-- Outcome of `check_server`, instrumented with the number of GET requests
issued and the number of `time.sleep` calls performed. -/
structure ProbeOutcome where
  ready : Bool
  attempts : Nat
  sleeps : Nat
deriving DecidableEq

/-- The `for i in range(retries)` loop of `check_server`, starting at attempt
index `i` with `n` iterations left.  A 200 status returns `True` at once;
any other status or a `RequestException` falls through to the sleep and the
next iteration. -/
def check_server_from (resp : Nat → ProbeResp) (i : Nat) : Nat → ProbeOutcome
  | 0 => ⟨false, 0, 0⟩
  | n + 1 =>
    match resp i with
    | ProbeResp.status c =>
      if c = 200 then ⟨true, 1, 0⟩
      else
        let r := check_server_from resp (i + 1) n
        ⟨r.ready, r.attempts + 1, r.sleeps + 1⟩
    | ProbeResp.exn =>
        let r := check_server_from resp (i + 1) n
        ⟨r.ready, r.attempts + 1, r.sleeps + 1⟩

/-- `check_server(url, retries, delay)`:  `resp` is the oracle giving the
result of the GET issued on each attempt; `delay` (milliseconds slept between
attempts) does not affect the returned value. -/
def check_server (resp : Nat → ProbeResp) (retries : Nat) (delay : Nat) : ProbeOutcome :=
  let _ := delay
  check_server_from resp 0 retries

/-- One element of the job's `images` list: a dict that may or may not carry
the `name` and `image` keys (`hasName` / `hasImage` model key presence). -/
structure ImageItem where
  hasName : Bool
  hasImage : Bool
  name : String
  image : String
deriving DecidableEq

/-- The `images` value of the input object: either present but not a list,
or a list of items. -/
inductive ImagesField where
  | notAList
  | items (l : List ImageItem)
deriving DecidableEq

/-- A parsed job-input object: the `workflow` value (absent or an opaque
document, modelled as a string) and the optional `images` value. -/
structure InputObj where
  workflow : Option String
  images : Option ImagesField
deriving DecidableEq

/-- The raw `job["input"]` value: `None`, a text blob (with the outcome of
`json.loads` on it baked in: `none` models a `JSONDecodeError`), or an
already-structured object. -/
inductive RawInput where
  | noneInput
  | strInput (parsed : Option InputObj)
  | objInput (o : InputObj)
deriving DecidableEq

/-- The normalized `{"workflow": ..., "images": ...}` dict that
`validate_input` returns on success. -/
structure Validated where
  workflow : String
  images : Option (List ImageItem)
deriving DecidableEq

/-- The body of `validate_input` after the `None`/string handling: check the
`workflow` key, then the shape of the `images` list.  (The quote characters
of the Python error messages are elided.) -/
def validate_obj (o : InputObj) : Except String Validated :=
  match o.workflow with
  | none => Except.error "Missing workflow parameter"
  | some wf =>
    match o.images with
    | none => Except.ok ⟨wf, none⟩
    | some ImagesField.notAList =>
        Except.error "images must be a list of objects with name and image keys"
    | some (ImagesField.items l) =>
        if l.all (fun img => img.hasName && img.hasImage) then
          Except.ok ⟨wf, some l⟩
        else
          Except.error "images must be a list of objects with name and image keys"

/-- `validate_input(job_input)`: returns the validated data or the error
message (the Python `(data, error)` tuple becomes `Except`). -/
def validate_input : RawInput → Except String Validated
  | RawInput.noneInput => Except.error "Please provide input"
  | RawInput.strInput none => Except.error "Invalid JSON format in input"
  | RawInput.strInput (some o) => validate_obj o
  | RawInput.objInput o => validate_obj o

/-- Result of one `requests.post(".../upload/image")`: HTTP 200, a non-200
response with its body text, or a raised exception with its message. -/
inductive UploadResp where
  | ok
  | bad (text : String)
  | exn (msg : String)
deriving DecidableEq

/-- Oracles used by `upload_images`: the outcome of `base64.b64decode` on a
given string (`Except.error` models the raised `binascii.Error`), and the
response to the i-th POST issued. -/
structure UploadEnv where
  b64decode : String → Except String String
  postResp : Nat → UploadResp

/-- The `{"status", "message", "details"}` dict returned by
`upload_images`. -/
structure UploadSummary where
  status : String
  message : String
  details : List String
deriving DecidableEq

/-- The `for image in images` loop of `upload_images`: `i` is the index of
the next POST, `responses`/`errors` the accumulators.  The
`base64.b64decode` call sits OUTSIDE the `try`, so a decode failure raises
out of the whole function (`Except.error`). -/
def upload_loop (env : UploadEnv) :
    List ImageItem → Nat → List String → List String → Except String UploadSummary
  | [], _, responses, errors =>
    if errors.isEmpty then
      Except.ok ⟨"success", "All images uploaded", responses⟩
    else
      Except.ok ⟨"error", "Partial upload failure", errors⟩
  | img :: rest, i, responses, errors =>
    match env.b64decode img.image with
    | Except.error e => Except.error e
    | Except.ok _blob =>
      match env.postResp i with
      | UploadResp.ok =>
          upload_loop env rest (i + 1) (responses ++ ["Uploaded " ++ img.name]) errors
      | UploadResp.bad t =>
          upload_loop env rest (i + 1) responses (errors ++ [img.name ++ ": " ++ t])
      | UploadResp.exn m =>
          upload_loop env rest (i + 1) responses (errors ++ [img.name ++ ": " ++ m])

/-- `upload_images(images)`: `None` or an empty list short-circuits to a
success summary with no network activity. -/
def upload_images (env : UploadEnv) : Option (List ImageItem) → Except String UploadSummary
  | none => Except.ok ⟨"success", "No images to upload", []⟩
  | some [] => Except.ok ⟨"success", "No images to upload", []⟩
  | some (img :: rest) => upload_loop env (img :: rest) 0 [] []

/-- The per-asset error strings that the loop of `upload_images` accumulates
for the sublist starting at POST index `i` (assuming every decode succeeds):
one entry per non-200 response or transport exception, none for a 200. -/
def errsFrom (env : UploadEnv) (i : Nat) : List ImageItem → List String
  | [] => []
  | img :: rest =>
    match env.postResp i with
    | UploadResp.ok => errsFrom env (i + 1) rest
    | UploadResp.bad t => (img.name ++ ": " ++ t) :: errsFrom env (i + 1) rest
    | UploadResp.exn m => (img.name ++ ": " ++ m) :: errsFrom env (i + 1) rest

/-- The per-asset success strings accumulated by `upload_images` for the
sublist starting at POST index `i`. -/
def succsFrom (env : UploadEnv) (i : Nat) : List ImageItem → List String
  | [] => []
  | img :: rest =>
    match env.postResp i with
    | UploadResp.ok => ("Uploaded " ++ img.name) :: succsFrom env (i + 1) rest
    | _ => succsFrom env (i + 1) rest

/-- An image reference reported by an output node: a
`{"subfolder": ..., "filename": ...}` entry. -/
structure ImageRef where
  subfolder : String
  filename : String
deriving DecidableEq

/-- One node output of the execution history: `images` is `some l` when the
node's dict carries the `images` key (with list `l`), `none` otherwise. -/
structure NodeOutput where
  images : Option (List ImageRef)
deriving DecidableEq

/-- One `GET /history/{prompt_id}` response body: `hasKey` models
`prompt_id in history`, and `outputs` models
`history[prompt_id].get("outputs")` with an absent key or empty (falsy) dict
collapsed to `[]`; node iteration order is the dict's insertion order. -/
structure Hist where
  hasKey : Bool
  outputs : List (String × NodeOutput)
deriving DecidableEq

/-- Result of the polling loop of `handler`: outputs found (with the history
record of the final fetch), wall-clock budget exhausted (the `while/else`
branch), or an exception raised by `get_history`/parsing (caught by the
surrounding `try`). -/
inductive PollResult where
  | done (h : Hist)
  | timeout
  | failed (msg : String)
deriving DecidableEq

/-- The `while (time.time() - start_time) < (max_retries * interval_ms / 1000)`
polling loop, under the idealization that each `get_history` call is
instantaneous and each iteration advances the clock by exactly one
`time.sleep(interval_ms / 1000)`: before attempt `n` the elapsed time is
`n * intervalMs` milliseconds.  `hist n` is the oracle for the n-th
`get_history` call; `fuel` bounds the recursion (the caller passes enough
for the loop's own bound to fire first). -/
def poll_loop (hist : Nat → Except String Hist) (intervalMs budgetMs n : Nat) :
    Nat → PollResult
  | 0 => PollResult.timeout
  | fuel + 1 =>
    if n * intervalMs < budgetMs then
      match hist n with
      | Except.error e => PollResult.failed e
      | Except.ok h =>
        if h.hasKey && !h.outputs.isEmpty then
          PollResult.done h
        else
          poll_loop hist intervalMs budgetMs (n + 1) fuel
    else
      PollResult.timeout

/-- `os.path.join` restricted to the relative paths this code joins. -/
def path_join (a b : String) : String :=
  if a.isEmpty then b else a ++ "/" ++ b

/-- The shared output directory as seen by `process_output_images`:
`listing` is `os.listdir(COMFY_OUTPUT_PATH)` in iteration order, `ctime` is
`os.path.getctime` on a full path, `pathExists` is `os.path.exists`, and
`size` is the on-disk size in bytes of the file at a full path (the Python
code never reads it; it is carried so that size-dependent properties can be
stated). -/
structure FS where
  listing : List String
  ctime : String → Nat
  pathExists : String → Bool
  size : String → Nat

/-- Environment of `process_output_images`: the `COMFY_OUTPUT_PATH` value,
whether `BUCKET_ENDPOINT_URL` is set, the URLs returned by
`rp_upload.upload_file` / `rp_upload.upload_image` (jobId, path), and the
base64 text produced by reading and encoding the file at a path (`readB64`
models `base64.b64encode(open(path).read())`). -/
structure OutEnv where
  outputPath : String
  bucketEndpoint : Bool
  uploadFileUrl : String → String → String
  uploadImageUrl : String → String → String
  readB64 : String → String

/-- The Python variable `output_images`: initialized to the empty dict `{}`
and then only ever overwritten with path strings. -/
inductive ImgPathVar where
  | emptyDict
  | str (s : String)
deriving DecidableEq

/-- The inner `for image in node_output["images"]` loop: each iteration
overwrites the variable with `os.path.join(image["subfolder"],
image["filename"])`. -/
def inner_go : List ImageRef → ImgPathVar → ImgPathVar
  | [], acc => acc
  | img :: rest, _ => inner_go rest (ImgPathVar.str (path_join img.subfolder img.filename))

/-- The outer `for node_id, node_output in outputs.items()` loop: nodes
without an `images` key are skipped. -/
def resolve_go : List (String × NodeOutput) → ImgPathVar → ImgPathVar
  | [], acc => acc
  | (_, no) :: rest, acc =>
    resolve_go rest (match no.images with
      | none => acc
      | some imgs => inner_go imgs acc)

/-- The image-resolution loop of `process_output_images` (lines 168-173):
the value of `output_images` after both loops. -/
def resolve_image_path (outputs : List (String × NodeOutput)) : ImgPathVar :=
  resolve_go outputs ImgPathVar.emptyDict

/-- The `(subfolder, filename)` pairs of all images of all nodes carrying an
`images` key, in iteration order (a specification helper used to state which
image the loop encounters last). -/
def all_images : List (String × NodeOutput) → List ImageRef
  | [] => []
  | (_, no) :: rest =>
    (match no.images with
      | none => []
      | some imgs => imgs) ++ all_images rest

/-- The result payload: a Python dict whose keys vary by path, modelled as a
record of optional fields (`none` = key absent). -/
structure Payload where
  status : Option String := none
  message : Option String := none
  is_video : Option Bool := none
  error : Option String := none
  details : Option (List String) := none
  refresh_worker : Option Bool := none
deriving DecidableEq

/-- `f.startswith("LP_") and f.endswith(".mp4")`, computed on the character
lists underlying the strings. -/
def has_video_name (f : String) : Bool :=
  "LP_".data.isPrefixOf f.data && ".mp4".data.isSuffixOf f.data

/-- The files of `fs.listing` matching the fixed video naming convention
(`LP_` prefix and `.mp4` extension), in directory iteration order. -/
def video_files (fs : FS) : List String :=
  fs.listing.filter has_video_name

/-- The comparison key of `video_files.sort(key=...)`: creation time of the
file inside the output directory. -/
def ctime_le (fs : FS) (outPath : String) (a b : String) : Prop :=
  fs.ctime (path_join outPath a) ≤ fs.ctime (path_join outPath b)

instance (fs : FS) (outPath : String) : DecidableRel (ctime_le fs outPath) :=
  fun _ _ => Nat.decLe _ _

/-- The video file the code picks when `video_files` is nonempty:
`video_files.sort(key=lambda x: os.path.getctime(os.path.join(path, x)))`
followed by `video_files[-1]`.  Python's `list.sort` is a stable sort by the
given key and is modelled by `List.insertionSort`, which is also stable,
hence extensionally equal on this key.  The `""` default of `getLastD` is
never reached (the list is nonempty at the call site). -/
def selected_video (env : OutEnv) (fs : FS) : String :=
  (List.insertionSort (ctime_le fs env.outputPath) (video_files fs)).getLastD ""

/-- `process_output_images(outputs, job_id)`, with the Python locals
`video_path` / `local_image_path` inlined.  `Except.error` models an
exception escaping the function: when no video file matches and no node
carries an `images` key, `output_images` is still the dict `{}` and
`os.path.join(COMFY_OUTPUT_PATH, output_images)` raises `TypeError` (the
message text is representative).  Reading the selected video or image and
the `rp_upload` calls are modelled as succeeding via the `OutEnv` oracles,
so the `except` arms around them (which map I/O and upload exceptions to
error payloads) are not represented. -/
def process_output_images (env : OutEnv) (fs : FS)
    (outputs : List (String × NodeOutput)) (jobId : String) : Except String Payload :=
  if (video_files fs).isEmpty then
    match resolve_image_path outputs with
    | ImgPathVar.emptyDict =>
        Except.error "TypeError: join argument must be str, not dict"
    | ImgPathVar.str relPath =>
      if fs.pathExists (path_join env.outputPath relPath) then
        if env.bucketEndpoint then
          Except.ok { status := some "success",
                      message := some (env.uploadImageUrl jobId (path_join env.outputPath relPath)) }
        else
          Except.ok { status := some "success",
                      message := some (env.readB64 (path_join env.outputPath relPath)) }
      else
        Except.ok { status := some "error", message := some "No output files generated" }
  else
    if env.bucketEndpoint then
      Except.ok { status := some "success",
                  message := some (env.uploadFileUrl jobId
                    (path_join env.outputPath (selected_video env fs))),
                  is_video := some true }
    else
      Except.ok { status := some "success",
                  message := some (env.readB64
                    (path_join env.outputPath (selected_video env fs))),
                  is_video := some true }

/-- The job record supplied by the dispatch framework. -/
structure Job where
  id : String
  input : RawInput

/-- The whole deterministic environment of one `handler` invocation:
readiness-probe responses, upload oracles, the `POST /prompt` outcome
(`Except.error` = raised exception caught by the `try`; `Except.ok none` =
response JSON without a `prompt_id` key, whose lookup raises `KeyError`
inside the same `try`), per-attempt history responses, the polling
configuration read from the environment, the output-resolution environment,
the filesystem, and the `REFRESH_WORKER` flag. -/
structure HandlerEnv where
  probeResp : Nat → ProbeResp
  upload : UploadEnv
  queueResp : Except String (Option String)
  histResp : Nat → Except String Hist
  pollIntervalMs : Nat
  pollMaxRetries : Nat
  out : OutEnv
  fs : FS
  refreshWorker : Bool

/-- Outcome of one `handler` call, instrumented for verification:
`result` is the returned payload, with `Except.error` meaning an uncaught
exception escaped `handler`; `resolved` is the outcome of
`process_output_images` when that stage was reached (`none` otherwise); and
`cleanupRan` records whether the cleanup walk over the output directory was
executed. -/
structure HandlerOutcome where
  result : Except String Payload
  resolved : Option (Except String Payload)
  cleanupRan : Bool

/-- `{"error": msg}` payloads returned by `handler` on failures. -/
def errPayload (msg : String) : Payload := { error := some msg }

/-- `handler(job)`, line by line:

1. `validate_input`: on error, return `{"error": error}` (no cleanup).
2. `check_server` with the hard-coded constants
   `COMFY_API_AVAILABLE_MAX_RETRIES = 500`,
   `COMFY_API_AVAILABLE_INTERVAL_MS = 50`; on `False`, return
   `{"error": "ComfyUI API unavailable"}`.
3. `upload_images(validated_data.get("images", []))`: a raised decode error
   propagates out of `handler` (crash); an `error`-status summary is
   returned as-is.
4. `queue_workflow` inside `try`: any exception (including the `KeyError`
   on a missing `prompt_id`) returns `{"error": "Workflow queueing failed: ..."}`.
5. The polling loop (see `poll_loop`): timeout and exception map to their
   error payloads.
6. `process_output_images`: a raised exception propagates out of `handler`
   uncaught (the call is outside any `try`), skipping cleanup.
7. Cleanup walks the output directory (its own errors are swallowed), then
   the result is returned merged with `{"refresh_worker": REFRESH_WORKER}`. -/
def handler (env : HandlerEnv) (job : Job) : HandlerOutcome :=
  match validate_input job.input with
  | Except.error e => ⟨Except.ok (errPayload e), none, false⟩
  | Except.ok validated =>
    if !(check_server env.probeResp 500 50).ready then
      ⟨Except.ok (errPayload "ComfyUI API unavailable"), none, false⟩
    else
      match upload_images env.upload validated.images with
      | Except.error e => ⟨Except.error e, none, false⟩
      | Except.ok summary =>
        if summary.status = "error" then
          ⟨Except.ok { status := some summary.status, message := some summary.message,
                       details := some summary.details }, none, false⟩
        else
          match env.queueResp with
          | Except.error e =>
              ⟨Except.ok (errPayload ("Workflow queueing failed: " ++ e)), none, false⟩
          | Except.ok none =>
              ⟨Except.ok (errPayload "Workflow queueing failed: KeyError prompt_id"),
               none, false⟩
          | Except.ok (some _promptId) =>
            match poll_loop env.histResp env.pollIntervalMs
                (env.pollMaxRetries * env.pollIntervalMs) 0 (env.pollMaxRetries + 1) with
            | PollResult.timeout =>
                ⟨Except.ok (errPayload "Workflow execution timeout"), none, false⟩
            | PollResult.failed e =>
                ⟨Except.ok (errPayload ("Polling failed: " ++ e)), none, false⟩
            | PollResult.done h =>
              match process_output_images env.out env.fs h.outputs job.id with
              | Except.error e => ⟨Except.error e, some (Except.error e), false⟩
              | Except.ok result =>
                  ⟨Except.ok { result with refresh_worker := some env.refreshWorker },
                   some (Except.ok result), true⟩

/-! ### Concrete environments used by witnesses and counterexamples -/

/-- An output directory holding one stray image and two matching video
files; `LP_a.mp4` is the most recently created one.  Every file reports a
size of 25 MiB (26214400 bytes). -/
def fsVideo : FS :=
  { listing := ["x.png", "LP_a.mp4", "LP_b.mp4"],
    ctime := fun p => if p = "/out/LP_a.mp4" then 7 else 3,
    pathExists := fun _ => false,
    size := fun _ => 26214400 }

/-- An empty output directory. -/
def fsEmpty : FS :=
  { listing := [], ctime := fun _ => 0, pathExists := fun _ => false, size := fun _ => 0 }

/-- An output directory with no matching video file where every resolved
image path exists. -/
def fsNoVideo : FS :=
  { listing := ["foo.png"], ctime := fun _ => 0, pathExists := fun _ => true, size := fun _ => 0 }

/-- Output resolution with no `BUCKET_ENDPOINT_URL` configured; inline
base64 reads are tagged for recognisability. -/
def outNoBucket : OutEnv :=
  { outputPath := "/out", bucketEndpoint := false,
    uploadFileUrl := fun _ p => "URL:" ++ p,
    uploadImageUrl := fun _ p => "IURL:" ++ p,
    readB64 := fun p => "B64:" ++ p }

/-- Upload oracles where every decode and every POST succeeds. -/
def upAllOk : UploadEnv :=
  { b64decode := fun s => Except.ok s, postResp := fun _ => UploadResp.ok }

/-- Upload oracles where the first and third POST fail with a non-200
response and the second succeeds. -/
def upFail13 : UploadEnv :=
  { b64decode := fun s => Except.ok s,
    postResp := fun i => if i = 1 then UploadResp.ok else UploadResp.bad "500 err" }

/-- Upload oracles where the content `"BAD"` fails to decode and every POST
succeeds. -/
def upBadMid : UploadEnv :=
  { b64decode := fun s =>
      if s = "BAD" then Except.error "Invalid base64-encoded string" else Except.ok s,
    postResp := fun _ => UploadResp.ok }

/-- A three-asset list. -/
def assets3 : List ImageItem :=
  [⟨true, true, "asset1", "AAA"⟩, ⟨true, true, "asset2", "BBB"⟩, ⟨true, true, "asset3", "CCC"⟩]

/-- Two output nodes, each reporting one image. -/
def outputsTwo : List (String × NodeOutput) :=
  [("1", ⟨some [⟨"s1", "a.png"⟩]⟩), ("2", ⟨some [⟨"s2", "b.png"⟩]⟩)]

/-- A history oracle that always answers "not done yet". -/
def histNever : Nat → Except String Hist := fun _ => Except.ok ⟨false, []⟩

/-- A history oracle whose first fetch raises. -/
def histBoom : Nat → Except String Hist :=
  fun n => if n = 0 then Except.error "boom" else Except.ok ⟨false, []⟩

/-- A handler environment where every stage succeeds: the service is ready
at once, there is nothing to upload, submission returns `"abc"`, the first
poll reports completed outputs, and resolution finds the videos of
`fsVideo`. -/
def envOK : HandlerEnv :=
  { probeResp := fun _ => ProbeResp.status 200,
    upload := upAllOk,
    queueResp := Except.ok (some "abc"),
    histResp := fun _ => Except.ok ⟨true, [("1", ⟨none⟩)]⟩,
    pollIntervalMs := 250, pollMaxRetries := 500,
    out := outNoBucket, fs := fsVideo, refreshWorker := false }

/-- Like `envOK` but with an empty output directory, so that resolution
sees neither a video file nor any node with an `images` key. -/
def envCrash : HandlerEnv := { envOK with fs := fsEmpty }

/-- A job whose input is a valid object with a workflow and no images. -/
def jobOK : Job := ⟨"job-1", RawInput.objInput ⟨some "WF", none⟩⟩

/-- The payload `handler` returns for `jobOK` under `envOK`. -/
def pOK : Payload :=
  { status := some "success", message := some "B64:/out/LP_a.mp4",
    is_video := some true, refresh_worker := some false }

/-- The payload `handler` returns when the workflow field is missing. -/
def pMissingWF : Payload := errPayload "Missing workflow parameter"

/-! ### Helper lemmas -/

/-- If every probe attempt in the window fails, the `check_server` loop from
index `i` with `n` iterations left returns false after exactly `n` attempts
and `n` sleeps. -/
theorem check_server_from_all_fail (resp : Nat → ProbeResp) :
    ∀ (n i : Nat), (∀ m, m < n → ∀ c, resp (i + m) = ProbeResp.status c → c ≠ 200) →
      check_server_from resp i n = ⟨false, n, n⟩ := by
  intro n
  induction n with
  | zero => intro i _; rfl
  | succ n ih =>
    intro i hfail
    have hrest : ∀ m, m < n → ∀ c, resp (i + 1 + m) = ProbeResp.status c → c ≠ 200 := by
      intro m hm c hc
      have : i + 1 + m = i + (m + 1) := by omega
      exact hfail (m + 1) (by omega) c (this ▸ hc)
    unfold check_server_from
    cases hr : resp i with
    | status c =>
      have hc : c ≠ 200 := hfail 0 (by omega) c (by simpa using hr)
      simp only [hc, if_false, ih i.succ hrest]
    | exn =>
      simp only [ih i.succ hrest]

/-- Characterization of the upload loop when every remaining decode
succeeds: the final summary aggregates exactly the per-asset errors of the
non-200/exception responses, with `error` status exactly when at least one
was recorded. -/
theorem upload_loop_char (env : UploadEnv) :
    ∀ (l : List ImageItem) (i : Nat) (responses errors : List String),
      (∀ img ∈ l, ∃ b, env.b64decode img.image = Except.ok b) →
      upload_loop env l i responses errors =
        Except.ok
          (if (errors ++ errsFrom env i l).isEmpty then
            ⟨"success", "All images uploaded", responses ++ succsFrom env i l⟩
          else
            ⟨"error", "Partial upload failure", errors ++ errsFrom env i l⟩) := by
  intro l
  induction l with
  | nil =>
    intro i responses errors _
    unfold upload_loop
    simp only [errsFrom, succsFrom, List.append_nil]
    by_cases he : errors.isEmpty <;> simp [he]
  | cons img rest ih =>
    intro i responses errors hdec
    obtain ⟨b, hb⟩ := hdec img (by simp)
    have hrest : ∀ x ∈ rest, ∃ b, env.b64decode x.image = Except.ok b := by
      intro x hx; exact hdec x (by simp [hx])
    unfold upload_loop
    cases hp : env.postResp i with
    | ok =>
      simp only [hb, hp]
      rw [ih (i + 1) (responses ++ ["Uploaded " ++ img.name]) errors hrest]
      simp [errsFrom, succsFrom, hp]
    | bad t =>
      simp only [hb, hp]
      rw [ih (i + 1) responses (errors ++ [img.name ++ ": " ++ t]) hrest]
      simp [errsFrom, succsFrom, hp]
    | exn m =>
      simp only [hb, hp]
      rw [ih (i + 1) responses (errors ++ [img.name ++ ": " ++ m]) hrest]
      simp [errsFrom, succsFrom, hp]

/-- If an asset whose content fails to decode is reached, the decode error
escapes the loop regardless of the accumulated state, the responses to the
earlier uploads, and the assets after it. -/
theorem upload_loop_raises (env : UploadEnv) (img : ImageItem) (post : List ImageItem)
    (e : String) (he : env.b64decode img.image = Except.error e) :
    ∀ (pre : List ImageItem) (i : Nat) (responses errors : List String),
      (∀ p ∈ pre, ∃ b, env.b64decode p.image = Except.ok b) →
      upload_loop env (pre ++ img :: post) i responses errors = Except.error e := by
  intro pre
  induction pre with
  | nil => intro i responses errors _; simp [upload_loop, he]
  | cons p rest ih =>
    intro i responses errors hdec
    obtain ⟨b, hb⟩ := hdec p (by simp)
    have hrest : ∀ x ∈ rest, ∃ b, env.b64decode x.image = Except.ok b := by
      intro x hx; exact hdec x (by simp [hx])
    rw [List.cons_append]
    unfold upload_loop
    simp only [hb]
    cases hpr : env.postResp i <;> simp only [hpr] <;> exact ih _ _ _ hrest

/-- A nonempty images list enters the upload loop with empty accumulators. -/
theorem upload_images_eq_loop (env : UploadEnv) (l : List ImageItem) (hl : l ≠ []) :
    upload_images env (some l) = upload_loop env l 0 [] [] := by
  cases l with
  | nil => exact absurd rfl hl
  | cons img rest => rfl

/-- If every attempt before the budget is fetched and reports
not-yet-done, the polling loop times out (for any attempt index and any
fuel). -/
theorem poll_loop_all_notdone (hist : Nat → Except String Hist)
    (intervalMs maxRetries : Nat)
    (hall : ∀ m, m < maxRetries →
      ∃ h, hist m = Except.ok h ∧ (h.hasKey && !h.outputs.isEmpty) = false) :
    ∀ (fuel n : Nat),
      poll_loop hist intervalMs (maxRetries * intervalMs) n fuel = PollResult.timeout := by
  intro fuel
  induction fuel with
  | zero => intro n; rfl
  | succ fuel ih =>
    intro n
    unfold poll_loop
    by_cases hcond : n * intervalMs < maxRetries * intervalMs
    · have hn : n < maxRetries := Nat.lt_of_mul_lt_mul_right hcond
      obtain ⟨h, hh, hnd⟩ := hall n hn
      rw [if_pos hcond, hh]
      simp only [hnd, Bool.false_eq_true, if_false]
      exact ih (n + 1)
    · rw [if_neg hcond]

/-- If the first `k` attempts report not-yet-done and attempt `k` raises,
the polling loop fails with that exception, provided attempt `k` is inside
the wall-clock budget. -/
theorem poll_loop_fails (hist : Nat → Except String Hist)
    (intervalMs maxRetries k : Nat) (e : String)
    (hi : 0 < intervalMs) (hk : k < maxRetries)
    (hbefore : ∀ m, m < k →
      ∃ h, hist m = Except.ok h ∧ (h.hasKey && !h.outputs.isEmpty) = false)
    (herr : hist k = Except.error e) :
    ∀ (fuel n : Nat), n ≤ k → k < n + fuel →
      poll_loop hist intervalMs (maxRetries * intervalMs) n fuel = PollResult.failed e := by
  intro fuel
  induction fuel with
  | zero => intro n hn hlt; omega
  | succ fuel ih =>
    intro n hn hlt
    have hcond : n * intervalMs < maxRetries * intervalMs :=
      (Nat.mul_lt_mul_right hi).mpr (by omega)
    unfold poll_loop
    rw [if_pos hcond]
    rcases Nat.eq_or_lt_of_le hn with heq | hltk
    · subst heq; rw [herr]
    · obtain ⟨h, hh, hnd⟩ := hbefore n hltk
      rw [hh]
      simp only [hnd, Bool.false_eq_true, if_false]
      exact ih (n + 1) (by omega) (by omega)

/-- The inner image loop leaves the variable at the last image of the list
(or unchanged when the list is empty). -/
theorem inner_go_last :
    ∀ (imgs : List ImageRef) (acc : ImgPathVar),
      inner_go imgs acc =
        match imgs.getLast? with
        | none => acc
        | some img => ImgPathVar.str (path_join img.subfolder img.filename) := by
  intro imgs
  induction imgs with
  | nil => intro acc; rfl
  | cons img rest ih =>
    intro acc
    cases rest with
    | nil => rfl
    | cons y ys =>
      show inner_go (y :: ys) (ImgPathVar.str (path_join img.subfolder img.filename)) = _
      rw [ih, List.getLast?_cons_cons]
      cases hg : (y :: ys).getLast? with
      | none => exact absurd (List.getLast?_eq_none_iff.mp hg) (by simp)
      | some x => rfl

/-- The node loop leaves the variable at the last image encountered over all
nodes carrying an `images` key. -/
theorem resolve_go_last :
    ∀ (outputs : List (String × NodeOutput)) (acc : ImgPathVar),
      resolve_go outputs acc =
        match (all_images outputs).getLast? with
        | none => acc
        | some img => ImgPathVar.str (path_join img.subfolder img.filename) := by
  intro outputs
  induction outputs with
  | nil => intro acc; rfl
  | cons node rest ih =>
    intro acc
    obtain ⟨nid, ⟨noImages⟩⟩ := node
    cases noImages with
    | none =>
      show resolve_go rest acc = _
      rw [ih]
      have hall : all_images ((nid, ⟨none⟩) :: rest) = all_images rest := rfl
      rw [hall]
    | some imgs =>
      show resolve_go rest (inner_go imgs acc) = _
      rw [ih, inner_go_last]
      have hall : all_images ((nid, ⟨some imgs⟩) :: rest) = imgs ++ all_images rest := rfl
      rw [hall, List.getLast?_append]
      cases hr : (all_images rest).getLast? <;> rfl

/-- For a nonempty list, `getLastD` is a member. -/
theorem getLastD_mem_of_ne_nil {α : Type} (l : List α) (d : α) (hl : l ≠ []) :
    l.getLastD d ∈ l := by
  cases l with
  | nil => exact absurd rfl hl
  | cons a t =>
    rw [List.getLastD_cons]
    exact List.getLastD_mem_cons t a

/-- In a `Pairwise r` list with `r` reflexive on its members, every member
is related to `getLastD`. -/
theorem pairwise_rel_getLastD {α : Type} (r : α → α → Prop) :
    ∀ (l : List α) (d : α), l.Pairwise r → (∀ x ∈ l, r x x) →
      ∀ x ∈ l, r x (l.getLastD d) := by
  intro l
  induction l with
  | nil => intro d _ _ x hx; simp at hx
  | cons a t ih =>
    intro d hp hrefl x hx
    rw [List.getLastD_cons]
    cases t with
    | nil =>
      have hxa : x = a := by simpa using hx
      subst hxa
      exact hrefl x (by simp)
    | cons b t2 =>
      have hmem : (b :: t2).getLastD a ∈ b :: t2 :=
        getLastD_mem_of_ne_nil (b :: t2) a (by simp)
      rcases List.mem_cons.mp hx with hxa | hxt
      · subst hxa
        exact (List.pairwise_cons.mp hp).1 _ hmem
      · exact ih a (List.pairwise_cons.mp hp).2
          (fun y hy => hrefl y (by simp [hy])) x hxt

/-- When at least one matching video file exists, the file the code selects
is a matching file of maximal creation time. -/
theorem selected_video_max (env : OutEnv) (fs : FS) (hv : video_files fs ≠ []) :
    selected_video env fs ∈ video_files fs ∧
      ∀ g ∈ video_files fs, ctime_le fs env.outputPath g (selected_video env fs) := by
  haveI : IsTotal String (ctime_le fs env.outputPath) := ⟨fun a b => Nat.le_total _ _⟩
  haveI : IsTrans String (ctime_le fs env.outputPath) := ⟨fun a b c => Nat.le_trans⟩
  have hperm := List.perm_insertionSort (ctime_le fs env.outputPath) (video_files fs)
  have hne : List.insertionSort (ctime_le fs env.outputPath) (video_files fs) ≠ [] := by
    intro h0
    exact hv ((h0 ▸ hperm).symm.eq_nil)
  have hmem := getLastD_mem_of_ne_nil _ "" hne
  constructor
  · exact hperm.mem_iff.mp hmem
  · intro g hg
    exact pairwise_rel_getLastD (ctime_le fs env.outputPath) _ ""
      (List.sorted_insertionSort (ctime_le fs env.outputPath) (video_files fs))
      (fun x _ => Nat.le_refl _) g (hperm.mem_iff.mpr hg)

/-- When at least one matching video file exists, `process_output_images`
takes the video branch with `is_video = true`, a message materialized from
the selected file, and no dependence on the reported node outputs. -/
theorem process_video_branch (env : OutEnv) (fs : FS)
    (outputs : List (String × NodeOutput)) (jobId : String)
    (hv : video_files fs ≠ []) :
    process_output_images env fs outputs jobId =
      Except.ok { status := some "success",
                  message := some (if env.bucketEndpoint then
                      env.uploadFileUrl jobId (path_join env.outputPath (selected_video env fs))
                    else
                      env.readB64 (path_join env.outputPath (selected_video env fs))),
                  is_video := some true } := by
  have hie : ¬ ((video_files fs).isEmpty = true) := fun h => hv (List.isEmpty_iff.mp h)
  unfold process_output_images
  rw [if_neg hie]
  by_cases hb : env.bucketEndpoint <;> simp [hb]

/-! ### Claims -/

/-- C9: for every response sequence in which the service never answers
HTTP 200, the readiness probe performs exactly `retries` request attempts
(not `retries + 1`), sleeping the configured interval between attempts, and
then returns false. -/
theorem C9_probe_exact_attempts (resp : Nat → ProbeResp) (retries delay : Nat)
    (hfail : ∀ n, n < retries → ∀ c, resp n = ProbeResp.status c → c ≠ 200) :
    check_server resp retries delay = ⟨false, retries, retries⟩ := by
  show check_server_from resp 0 retries = _
  exact check_server_from_all_fail resp retries 0
    (fun m hm c hc => hfail m hm c (by simpa using hc))

/-- C9 witness: three attempts that always answer HTTP 500 give exactly
three requests and `ready = false`. -/
theorem C9_witness : check_server (fun _ => ProbeResp.status 500) 3 50 = ⟨false, 3, 3⟩ :=
  C9_probe_exact_attempts (fun _ => ProbeResp.status 500) 3 50
    (fun _ _ c hc => by injection hc with h; omega)

/-- C8: when every asset decodes, the uploader consults the response of
every asset (the aggregate is computed over the whole list even after
earlier failures), records one error string per non-200 or transport
exception, and returns status `error` exactly when at least one error was
recorded, listing exactly the failing assets. -/
theorem C8_upload_aggregation (env : UploadEnv) (l : List ImageItem)
    (hne : l ≠ [])
    (hdec : ∀ img ∈ l, ∃ b, env.b64decode img.image = Except.ok b) :
    upload_images env (some l) =
      Except.ok
        (if (errsFrom env 0 l).isEmpty then
          ⟨"success", "All images uploaded", succsFrom env 0 l⟩
        else
          ⟨"error", "Partial upload failure", errsFrom env 0 l⟩) := by
  rw [upload_images_eq_loop env l hne, upload_loop_char env l 0 [] [] hdec]
  simp

/-- C8 witness: three assets where uploads 1 and 3 fail and 2 succeeds
yield status `error` with exactly the two error entries for assets 1
and 3. -/
theorem C8_witness :
    upload_images upFail13 (some assets3) =
      Except.ok ⟨"error", "Partial upload failure", ["asset1: 500 err", "asset3: 500 err"]⟩ :=
  (C8_upload_aggregation upFail13 assets3 (by decide)
      (fun img _ => ⟨img.image, rfl⟩)).trans (by decide)

/-- C10: an asset whose text-encoded content fails to decode raises the
decode error out of the uploader: no per-asset error entry is recorded for
it, the remaining assets are not attempted (the result is independent of
every POST response), and no upload summary is returned. -/
theorem C10_decode_error_escapes (env : UploadEnv) (pre post : List ImageItem)
    (img : ImageItem) (e : String)
    (hpre : ∀ p ∈ pre, ∃ b, env.b64decode p.image = Except.ok b)
    (he : env.b64decode img.image = Except.error e) :
    upload_images env (some (pre ++ img :: post)) = Except.error e := by
  rw [upload_images_eq_loop env _ (by simp)]
  exact upload_loop_raises env img post e he pre 0 [] [] hpre

/-- C10 witness: with the second of three assets carrying undecodable
content, the uploader raises the decode error instead of returning a
summary. -/
theorem C10_witness :
    upload_images upBadMid
        (some ([⟨true, true, "asset1", "AAA"⟩] ++
          ⟨true, true, "asset2", "BAD"⟩ :: [⟨true, true, "asset3", "CCC"⟩])) =
      Except.error "Invalid base64-encoded string" :=
  C10_decode_error_escapes upBadMid [⟨true, true, "asset1", "AAA"⟩]
    [⟨true, true, "asset3", "CCC"⟩] ⟨true, true, "asset2", "BAD"⟩
    "Invalid base64-encoded string"
    (by
      intro p hp
      have hp1 : p = ⟨true, true, "asset1", "AAA"⟩ := List.mem_singleton.mp hp
      subst hp1
      exact ⟨"AAA", by decide⟩)
    (by decide)

/-- C5: if outputs never appear within the polling budget
(`maxRetries * intervalMs` of wall-clock, i.e. the first `maxRetries`
attempts all report not-done), the poller ends in a timeout; and if some
poll attempt inside the budget raises, the poller fails immediately with
that exception, without retrying the attempt. -/
theorem C5_poll_timeout_or_immediate_failure
    (hist : Nat → Except String Hist) (intervalMs maxRetries : Nat) :
    ((∀ m, m < maxRetries →
        ∃ h, hist m = Except.ok h ∧ (h.hasKey && !h.outputs.isEmpty) = false) →
      poll_loop hist intervalMs (maxRetries * intervalMs) 0 (maxRetries + 1) =
        PollResult.timeout) ∧
    (∀ k e, 0 < intervalMs → k < maxRetries →
      (∀ m, m < k →
        ∃ h, hist m = Except.ok h ∧ (h.hasKey && !h.outputs.isEmpty) = false) →
      hist k = Except.error e →
      poll_loop hist intervalMs (maxRetries * intervalMs) 0 (maxRetries + 1) =
        PollResult.failed e) := by
  constructor
  · intro hall
    exact poll_loop_all_notdone hist intervalMs maxRetries hall (maxRetries + 1) 0
  · intro k e hi hk hbefore herr
    exact poll_loop_fails hist intervalMs maxRetries k e hi hk hbefore herr
      (maxRetries + 1) 0 (Nat.zero_le k) (by omega)

/-- C5 witness: a never-done history times out after the budget, and a
history whose first fetch raises fails immediately. -/
theorem C5_witness :
    poll_loop histNever 250 (2 * 250) 0 (2 + 1) = PollResult.timeout ∧
    poll_loop histBoom 250 (2 * 250) 0 (2 + 1) = PollResult.failed "boom" :=
  ⟨(C5_poll_timeout_or_immediate_failure histNever 250 2).1
      (fun _ _ => ⟨⟨false, []⟩, rfl, rfl⟩),
   (C5_poll_timeout_or_immediate_failure histBoom 250 2).2 0 "boom"
      (by omega) (by omega) (fun m hm => absurd hm (Nat.not_lt_zero m)) rfl⟩

/-- C6: whenever at least one file matching the video naming convention
exists in the output directory, output resolution returns the video with
`is_video = true`, selecting a matching file of maximal creation time, and
the reported image outputs play no role (the conclusion holds for every
`outputs` value). -/
theorem C6_video_preferred (env : OutEnv) (fs : FS)
    (outputs : List (String × NodeOutput)) (jobId : String)
    (hv : video_files fs ≠ []) :
    selected_video env fs ∈ video_files fs ∧
    (∀ g ∈ video_files fs, ctime_le fs env.outputPath g (selected_video env fs)) ∧
    process_output_images env fs outputs jobId =
      Except.ok { status := some "success",
                  message := some (if env.bucketEndpoint then
                      env.uploadFileUrl jobId (path_join env.outputPath (selected_video env fs))
                    else
                      env.readB64 (path_join env.outputPath (selected_video env fs))),
                  is_video := some true } :=
  ⟨(selected_video_max env fs hv).1, (selected_video_max env fs hv).2,
   process_video_branch env fs outputs jobId hv⟩

/-- C6 witness: with two matching videos and an image output present, the
newest video (`LP_a.mp4`) is returned inline with `is_video = true` and the
image is ignored. -/
theorem C6_witness :
    selected_video outNoBucket fsVideo ∈ video_files fsVideo ∧
    (∀ g ∈ video_files fsVideo,
      ctime_le fsVideo outNoBucket.outputPath g (selected_video outNoBucket fsVideo)) ∧
    process_output_images outNoBucket fsVideo [("1", ⟨some [⟨"sub", "img.png"⟩]⟩)] "job-1" =
      Except.ok { status := some "success",
                  message := some (if outNoBucket.bucketEndpoint then
                      outNoBucket.uploadFileUrl "job-1"
                        (path_join outNoBucket.outputPath (selected_video outNoBucket fsVideo))
                    else
                      outNoBucket.readB64
                        (path_join outNoBucket.outputPath (selected_video outNoBucket fsVideo))),
                  is_video := some true } :=
  C6_video_preferred outNoBucket fsVideo [("1", ⟨some [⟨"sub", "img.png"⟩]⟩)] "job-1" (by decide)

/-- C4 (amended): materialization enforces no size bound at all: with no
external-storage endpoint configured, a matching video is returned inline as
a success payload whatever size the filesystem reports for it (the result is
independent of the `size` oracle), rather than failing with a size-limit
error. -/
theorem C4_no_inline_size_limit (env : OutEnv) (fs : FS) (sz : String → Nat)
    (outputs : List (String × NodeOutput)) (jobId : String)
    (hb : env.bucketEndpoint = false) (hv : video_files fs ≠ []) :
    process_output_images env { fs with size := sz } outputs jobId =
      Except.ok { status := some "success",
                  message := some (env.readB64 (path_join env.outputPath
                    (selected_video env { fs with size := sz }))),
                  is_video := some true } := by
  have h := process_video_branch env { fs with size := sz } outputs jobId hv
  rw [h]
  simp [hb]

/-- C4 counterexample: a 25 MiB (26214400-byte) matching video with no
external-storage endpoint is returned inline as a success payload — not the
size-limit error the claim requires. -/
theorem C4_counterexample :
    fsVideo.size "/out/LP_a.mp4" = 26214400 ∧
    outNoBucket.bucketEndpoint = false ∧
    process_output_images outNoBucket fsVideo [] "job-1" =
      Except.ok { status := some "success", message := some "B64:/out/LP_a.mp4",
                  is_video := some true } := by
  decide

/-- C4 witness: the amended claim at a 25 MiB size oracle. -/
theorem C4_witness :
    process_output_images outNoBucket { fsVideo with size := fun _ => 26214400 } [] "job-1" =
      Except.ok { status := some "success", message := some "B64:/out/LP_a.mp4",
                  is_video := some true } :=
  (C4_no_inline_size_limit outNoBucket fsVideo (fun _ => 26214400) [] "job-1" rfl
      (by decide)).trans (by decide)

/-- C7: the image-resolution loop leaves the resolved path at the
`(subfolder, filename)` pair of the image encountered last in iteration
order over the nodes (overwrite semantics); and when no video file is
present, that path exists, and no bucket endpoint is set, resolution
returns its inline encoding. -/
theorem C7_last_image_wins (env : OutEnv) (fs : FS)
    (outputs : List (String × NodeOutput)) (jobId : String) (img : ImageRef)
    (hlast : (all_images outputs).getLast? = some img) :
    resolve_image_path outputs = ImgPathVar.str (path_join img.subfolder img.filename) ∧
    (video_files fs = [] →
      fs.pathExists (path_join env.outputPath (path_join img.subfolder img.filename)) = true →
      env.bucketEndpoint = false →
      process_output_images env fs outputs jobId =
        Except.ok { status := some "success",
                    message := some (env.readB64 (path_join env.outputPath
                      (path_join img.subfolder img.filename))) }) := by
  have hres : resolve_image_path outputs =
      ImgPathVar.str (path_join img.subfolder img.filename) := by
    unfold resolve_image_path
    rw [resolve_go_last, hlast]
  refine ⟨hres, ?_⟩
  intro hv hex hb
  have hie : (video_files fs).isEmpty = true := List.isEmpty_iff.mpr hv
  unfold process_output_images
  simp [hie, hres, hex, hb]

/-- C7 witness: two output nodes with one image each and no video file: the
second node's image is the resolved one. -/
theorem C7_witness :
    resolve_image_path outputsTwo = ImgPathVar.str (path_join "s2" "b.png") ∧
    process_output_images outNoBucket fsNoVideo outputsTwo "job-1" =
      Except.ok { status := some "success",
                  message := some (outNoBucket.readB64 (path_join outNoBucket.outputPath
                    (path_join "s2" "b.png"))) } :=
  ⟨(C7_last_image_wins outNoBucket fsNoVideo outputsTwo "job-1" ⟨"s2", "b.png"⟩
      (by decide)).1,
   (C7_last_image_wins outNoBucket fsNoVideo outputsTwo "job-1" ⟨"s2", "b.png"⟩
      (by decide)).2 (by decide) (by decide) (by decide)⟩

/-- C1 (amended): the workspace cleanup runs exactly on the runs whose
output resolution is reached and returns without raising; on every earlier
failure path (validation error, readiness exhaustion, upload failure,
submission failure, poll timeout, poll exception) the handler returns its
error payload without draining the output directory, and when resolution
raises, cleanup is skipped as well. -/
theorem C1_cleanup_iff_resolution_succeeded (env : HandlerEnv) (job : Job) :
    (handler env job).cleanupRan = true ↔
      ∃ q, (handler env job).resolved = some (Except.ok q) := by
  cases hval : validate_input job.input with
  | error e => simp [handler, hval]
  | ok validated =>
    by_cases hcs : (check_server env.probeResp 500 50).ready
    · cases hup : upload_images env.upload validated.images with
      | error e => simp [handler, hval, hcs, hup]
      | ok summary =>
        by_cases hst : summary.status = "error"
        · simp [handler, hval, hcs, hup, hst]
        · cases hq : env.queueResp with
          | error e => simp [handler, hval, hcs, hup, hst, hq]
          | ok pid =>
            cases pid with
            | none => simp [handler, hval, hcs, hup, hst, hq]
            | some pid =>
              cases hp : poll_loop env.histResp env.pollIntervalMs
                  (env.pollMaxRetries * env.pollIntervalMs) 0 (env.pollMaxRetries + 1) with
              | timeout => simp [handler, hval, hcs, hup, hst, hq, hp]
              | failed e => simp [handler, hval, hcs, hup, hst, hq, hp]
              | done h =>
                cases hr : process_output_images env.out env.fs h.outputs job.id with
                | error e => simp [handler, hval, hcs, hup, hst, hq, hp, hr]
                | ok result => simp [handler, hval, hcs, hup, hst, hq, hp, hr]
    · simp [handler, hval, hcs]

/-- C1 counterexample: a job that fails validation receives its terminal
error payload while the cleanup never runs — cleanup does not run "on every
failure path" as the claim states. -/
theorem C1_counterexample :
    (handler envOK ⟨"cx1", RawInput.noneInput⟩).result =
      Except.ok (errPayload "Please provide input") ∧
    (handler envOK ⟨"cx1", RawInput.noneInput⟩).cleanupRan = false := by
  decide

/-- C2 (amended): the returned payload carries the worker-lifecycle
directive (`refresh_worker`, from process-wide configuration) exactly when
the run reached output resolution and it succeeded; the payloads of all
earlier failure paths omit the field. -/
theorem C2_refresh_worker_only_after_resolution (env : HandlerEnv) (job : Job)
    (p : Payload) (hres : (handler env job).result = Except.ok p) :
    p.refresh_worker = some env.refreshWorker ↔
      ∃ q, (handler env job).resolved = some (Except.ok q) := by
  cases hval : validate_input job.input with
  | error e =>
    simp [handler, hval] at hres ⊢
    simp [← hres, errPayload]
  | ok validated =>
    by_cases hcs : (check_server env.probeResp 500 50).ready
    · cases hup : upload_images env.upload validated.images with
      | error e => simp [handler, hval, hcs, hup] at hres
      | ok summary =>
        by_cases hst : summary.status = "error"
        · simp [handler, hval, hcs, hup, hst] at hres ⊢
          simp [← hres]
        · cases hq : env.queueResp with
          | error e =>
            simp [handler, hval, hcs, hup, hst, hq] at hres ⊢
            simp [← hres, errPayload]
          | ok pid =>
            cases pid with
            | none =>
              simp [handler, hval, hcs, hup, hst, hq] at hres ⊢
              simp [← hres, errPayload]
            | some pid =>
              cases hp : poll_loop env.histResp env.pollIntervalMs
                  (env.pollMaxRetries * env.pollIntervalMs) 0 (env.pollMaxRetries + 1) with
              | timeout =>
                simp [handler, hval, hcs, hup, hst, hq, hp] at hres ⊢
                simp [← hres, errPayload]
              | failed e =>
                simp [handler, hval, hcs, hup, hst, hq, hp] at hres ⊢
                simp [← hres, errPayload]
              | done h =>
                cases hr : process_output_images env.out env.fs h.outputs job.id with
                | error e => simp [handler, hval, hcs, hup, hst, hq, hp, hr] at hres
                | ok result =>
                  simp [handler, hval, hcs, hup, hst, hq, hp, hr] at hres ⊢
                  simp [← hres]
    · simp [handler, hval, hcs] at hres ⊢
      simp [← hres, errPayload]

/-- C2 counterexample: the error payload of a job whose workflow field is
missing does not contain the worker-lifecycle directive, contradicting the
claim that every payload carries it. -/
theorem C2_counterexample :
    (handler envOK ⟨"cx2", RawInput.objInput ⟨none, none⟩⟩).result =
      Except.ok pMissingWF ∧
    pMissingWF.refresh_worker = none := by
  decide

/-- C2 witness: the success-path payload does carry the directive, and the
amended equivalence holds there. -/
theorem C2_witness :
    (handler envOK jobOK).result = Except.ok pOK ∧
    (pOK.refresh_worker = some envOK.refreshWorker ↔
      ∃ q, (handler envOK jobOK).resolved = some (Except.ok q)) :=
  ⟨by decide,
   C2_refresh_worker_only_after_resolution envOK jobOK pOK (by decide)⟩

/-- C3: with no matching video file and a completed history whose only node
carries no `images` key, output resolution raises a `TypeError`
(`os.path.join` applied to the initial `{}` dict) instead of returning the
`No output files generated` error payload; the exception escapes `handler`
uncaught — the worker process crashes and no cleanup runs. -/
theorem C3_no_images_raises_TypeError :
    process_output_images outNoBucket fsEmpty [("1", ⟨none⟩)] "job-1" =
      Except.error "TypeError: join argument must be str, not dict" ∧
    (handler envCrash jobOK).result =
      Except.error "TypeError: join argument must be str, not dict" ∧
    (handler envCrash jobOK).cleanupRan = false := by
  decide

end RpHandler
